import Mathlib

/-!
Shallow embedding of ext/groonga/rb-grn-geo-point.c.

The C file is a native-extension shim: it keeps two file-scope class
references (rb_cGrnTokyoGeoPoint, rb_cGrnWGS84GeoPoint), resolves them
once in rb_grn_init_geo_point via rb_const_get, and constructs geodetic
points by forwarding latitude/longitude pairs to those classes through
rb_funcall(klass, rb_intern("new"), 2, latitude, longitude).

The host-language classes TokyoGeoPoint and WGS84GeoPoint are not part
of the given source; they are modelled from the specification as
immutable (latitude, longitude, datum) triples with structural equality.
The two file-scope globals become an explicit state record threaded
through the constructors; an unassigned global is modelled as none.
-/

/-- The two geodetic datum tags: Tokyo Datum and WGS84. -/
inductive Datum : Type
  | Tokyo : Datum
  | WGS84 : Datum
deriving DecidableEq, Repr

/-- Modelled from the spec: the host-language GeoPoint value classes
(TokyoGeoPoint / WGS84GeoPoint) are defined outside the given source.
The spec describes their instances as immutable (latitude, longitude,
datum) triples whose equality holds iff all three components agree. -/
structure GeoPoint : Type where
  latitude : Int
  longitude : Int
  datum : Datum
deriving DecidableEq, Repr

/-- The two host classes the C file resolves by name at module init. -/
inductive HostClass : Type
  | TokyoGeoPoint : HostClass
  | WGS84GeoPoint : HostClass
deriving DecidableEq, Repr

/-- The constant name used for the Tokyo class lookup. -/
def tokyoClassName : String := "TokyoGeoPoint"

/-- The constant name used for the WGS84 class lookup. -/
def wgs84ClassName : String := "WGS84GeoPoint"

/-- Modelled from the spec: invoking method new on a host class builds
the immutable triple; the datum tag is fixed solely by which class is
invoked and the two numeric arguments are stored unchanged, latitude
first, longitude second. -/
def HostClass.callNew : HostClass → Int → Int → GeoPoint
  | HostClass.TokyoGeoPoint, la, lo =>
      { latitude := la, longitude := lo, datum := Datum.Tokyo }
  | HostClass.WGS84GeoPoint, la, lo =>
      { latitude := la, longitude := lo, datum := Datum.WGS84 }

/-- rb_funcall(klass, rb_intern("new"), 2, latitude, longitude). -/
def rb_funcall_new (klass : HostClass) (latitude longitude : Int) : GeoPoint :=
  klass.callNew latitude longitude

/-- The two file-scope globals of rb-grn-geo-point.c; none models a
class reference that rb_grn_init_geo_point has never assigned. -/
structure GeoPointModuleState : Type where
  rb_cGrnTokyoGeoPoint : Option HostClass
  rb_cGrnWGS84GeoPoint : Option HostClass
deriving DecidableEq, Repr

/-- The module state before rb_grn_init_geo_point has run: both class
references are unresolved. -/
def unresolvedState : GeoPointModuleState :=
  { rb_cGrnTokyoGeoPoint := none, rb_cGrnWGS84GeoPoint := none }

/-- rb_const_get(m, rb_intern(name)): look a constant up in a module,
modelled as a partial name-to-class table. -/
def rb_const_get (m : String → Option HostClass) (name : String) : Option HostClass :=
  m name

/-- Modelled from the spec: the Groonga host module in which the two
geo-point classes are registered, each under its own name. -/
def mGrn : String → Option HostClass := fun name =>
  if name = tokyoClassName then some HostClass.TokyoGeoPoint
  else if name = wgs84ClassName then some HostClass.WGS84GeoPoint
  else none

/-- rb_grn_init_geo_point(mGrn): resolve and cache the two class
references. A failed constant lookup makes the host raise, modelled as
none; on success the two globals hold the two resolved classes. -/
def rb_grn_init_geo_point (m : String → Option HostClass)
    (_s : GeoPointModuleState) : Option GeoPointModuleState :=
  match rb_const_get m tokyoClassName, rb_const_get m wgs84ClassName with
  | some t, some w =>
      some { rb_cGrnTokyoGeoPoint := some t, rb_cGrnWGS84GeoPoint := some w }
  | _, _ => none

/-- rb_grn_tokyo_geo_point_new_raw: read the cached Tokyo class
reference and invoke new on it with the two arguments in order. The
body only reads the global, so the state is returned unchanged; reading
an unresolved reference yields none. -/
def rb_grn_tokyo_geo_point_new_raw (s : GeoPointModuleState)
    (latitude longitude : Int) : Option GeoPoint × GeoPointModuleState :=
  (Option.map (fun klass => rb_funcall_new klass latitude longitude)
    s.rb_cGrnTokyoGeoPoint, s)

/-- rb_grn_wgs84_geo_point_new_raw: read the cached WGS84 class
reference and invoke new on it with the two arguments in order. -/
def rb_grn_wgs84_geo_point_new_raw (s : GeoPointModuleState)
    (latitude longitude : Int) : Option GeoPoint × GeoPointModuleState :=
  (Option.map (fun klass => rb_funcall_new klass latitude longitude)
    s.rb_cGrnWGS84GeoPoint, s)

/-- INT2NUM: embed a C int into the host number type. The resulting
host integer denotes the same mathematical integer, so over the Int
carrier of the embedding the conversion is the identity. -/
def INT2NUM (n : Int) : Int := n

/-- rb_grn_tokyo_geo_point_new: convert the two C ints with INT2NUM and
delegate to the raw constructor. -/
def rb_grn_tokyo_geo_point_new (s : GeoPointModuleState)
    (latitude longitude : Int) : Option GeoPoint × GeoPointModuleState :=
  rb_grn_tokyo_geo_point_new_raw s (INT2NUM latitude) (INT2NUM longitude)

/-- rb_grn_wgs84_geo_point_new: convert the two C ints with INT2NUM and
delegate to the raw constructor. -/
def rb_grn_wgs84_geo_point_new (s : GeoPointModuleState)
    (latitude longitude : Int) : Option GeoPoint × GeoPointModuleState :=
  rb_grn_wgs84_geo_point_new_raw s (INT2NUM latitude) (INT2NUM longitude)

/-- The canonical post-init module state: both class references
resolved from mGrn. -/
def readyState : GeoPointModuleState :=
  { rb_cGrnTokyoGeoPoint := some HostClass.TokyoGeoPoint,
    rb_cGrnWGS84GeoPoint := some HostClass.WGS84GeoPoint }

/-- A construction call, as issued by a client of the module. -/
inductive GeoCmd : Type
  | mkTokyo : Int → Int → GeoCmd
  | mkWGS84 : Int → Int → GeoCmd
deriving DecidableEq, Repr

/-- Run one construction call against the module state. -/
def runCmd (s : GeoPointModuleState) : GeoCmd → Option GeoPoint × GeoPointModuleState
  | GeoCmd.mkTokyo la lo => rb_grn_tokyo_geo_point_new s la lo
  | GeoCmd.mkWGS84 la lo => rb_grn_wgs84_geo_point_new s la lo

/-- Run a sequence of construction calls, threading the module state. -/
def runCmds (s : GeoPointModuleState) : List GeoCmd → List (Option GeoPoint) × GeoPointModuleState
  | [] => ([], s)
  | c :: cs =>
      let r := runCmd s c
      let rest := runCmds r.2 cs
      (r.1 :: rest.1, rest.2)

/-- C1: for every pair of integers la, lo, the Tokyo constructor yields
a point whose latitude is la and whose longitude is lo, and likewise
for the WGS84 constructor: the two arguments are stored unchanged and
in order, latitude first, longitude second. -/
theorem constructors_store_arguments_in_order (la lo : Int) :
    (∃ p : GeoPoint, (rb_grn_tokyo_geo_point_new readyState la lo).1 = some p ∧
      p.latitude = la ∧ p.longitude = lo) ∧
    (∃ p : GeoPoint, (rb_grn_wgs84_geo_point_new readyState la lo).1 = some p ∧
      p.latitude = la ∧ p.longitude = lo) :=
  ⟨⟨rb_funcall_new HostClass.TokyoGeoPoint la lo, rfl, rfl, rfl⟩,
   ⟨rb_funcall_new HostClass.WGS84GeoPoint la lo, rfl, rfl, rfl⟩⟩

/-- C2: for every pair of integers la, lo, the Tokyo constructor yields
a point whose datum is Tokyo and the WGS84 constructor one whose datum
is WGS84: the tag is fixed at construction by the constructor used. -/
theorem constructors_fix_datum_tag (la lo : Int) :
    (rb_grn_tokyo_geo_point_new readyState la lo).1 =
      some { latitude := la, longitude := lo, datum := Datum.Tokyo } ∧
    (rb_grn_wgs84_geo_point_new readyState la lo).1 =
      some { latitude := la, longitude := lo, datum := Datum.WGS84 } :=
  ⟨rfl, rfl⟩

/-- C3: equality of GeoPoint values holds iff the latitudes, the
longitudes and the datum tags are all equal; in particular a Tokyo
point and a WGS84 point built from the same integer pair are unequal. -/
theorem geo_point_eq_iff_fields_and_datum (p q : GeoPoint) :
    (p = q ↔ p.latitude = q.latitude ∧ p.longitude = q.longitude ∧ p.datum = q.datum) ∧
    ∀ la lo : Int,
      (rb_grn_tokyo_geo_point_new readyState la lo).1 ≠
      (rb_grn_wgs84_geo_point_new readyState la lo).1 := by
  constructor
  · cases p
    cases q
    simp
  · intro la lo h
    have h2 : some ({ latitude := la, longitude := lo, datum := Datum.Tokyo } : GeoPoint) =
        some ({ latitude := la, longitude := lo, datum := Datum.WGS84 } : GeoPoint) := h
    simp at h2

/-- C4: construction is total: for every pair of integers both
constructors succeed on the post-init state; no range validation is
performed, so any latitude/longitude pair is accepted. -/
theorem construction_is_total (la lo : Int) :
    ((rb_grn_tokyo_geo_point_new readyState la lo).1).isSome = true ∧
    ((rb_grn_wgs84_geo_point_new readyState la lo).1).isSome = true :=
  ⟨rfl, rfl⟩

/-- C5: GeoPoint values are immutable: running any sequence of further
construction calls leaves the module state exactly as it was, every
call in the sequence yields the same value it would yield run alone in
the initial state, and a Tokyo construction embedded at any position in
a sequence still yields exactly the triple built from its own two
arguments, unaffected by the calls around it. -/
theorem geo_points_immutable (s : GeoPointModuleState) (cs : List GeoCmd) :
    (runCmds s cs).2 = s ∧
    (runCmds s cs).1 = cs.map (fun c => (runCmd s c).1) ∧
    ∀ (pre post : List GeoCmd) (la lo : Int),
      (runCmds readyState (pre ++ GeoCmd.mkTokyo la lo :: post)).1 =
        (runCmds readyState pre).1 ++
          some ({ latitude := la, longitude := lo, datum := Datum.Tokyo } : GeoPoint) ::
            (runCmds readyState post).1 := by
  have hstate : ∀ (t : GeoPointModuleState) (l : List GeoCmd), (runCmds t l).2 = t := by
    intro t l
    induction l generalizing t with
    | nil => rfl
    | cons c l ih =>
        have hc : (runCmd t c).2 = t := by cases c <;> rfl
        simp [runCmds, hc, ih]
  have hmap : ∀ (t : GeoPointModuleState) (l : List GeoCmd),
      (runCmds t l).1 = l.map (fun c => (runCmd t c).1) := by
    intro t l
    induction l generalizing t with
    | nil => rfl
    | cons c l ih =>
        have hc : (runCmd t c).2 = t := by cases c <;> rfl
        simp [runCmds, hc, ih]
  refine ⟨hstate s cs, hmap s cs, ?_⟩
  intro pre post la lo
  rw [hmap, hmap, hmap, List.map_append, List.map_cons]
  rfl

/-- C6: construction is deterministic: two successive calls of the same
constructor with the same arguments, the second run in the state left
by the first, produce equal values; in particular two runs of the Tokyo
constructor on (-90, -180) compare equal. -/
theorem construction_deterministic (s : GeoPointModuleState) (la lo : Int) :
    (rb_grn_tokyo_geo_point_new
        (rb_grn_tokyo_geo_point_new s la lo).2 la lo).1 =
      (rb_grn_tokyo_geo_point_new s la lo).1 ∧
    (rb_grn_wgs84_geo_point_new
        (rb_grn_wgs84_geo_point_new s la lo).2 la lo).1 =
      (rb_grn_wgs84_geo_point_new s la lo).1 ∧
    (rb_grn_tokyo_geo_point_new
        (rb_grn_tokyo_geo_point_new readyState (-90) (-180)).2 (-90) (-180)).1 =
      (rb_grn_tokyo_geo_point_new readyState (-90) (-180)).1 :=
  ⟨rfl, rfl, rfl⟩

/-- C7: construction has no side effect on the module state: each of
the four constructors reads the cached class references and returns the
state it was given, unchanged, for every input. -/
theorem construction_preserves_state (s : GeoPointModuleState) (la lo : Int) :
    (rb_grn_tokyo_geo_point_new s la lo).2 = s ∧
    (rb_grn_wgs84_geo_point_new s la lo).2 = s ∧
    (rb_grn_tokyo_geo_point_new_raw s la lo).2 = s ∧
    (rb_grn_wgs84_geo_point_new_raw s la lo).2 = s :=
  ⟨rfl, rfl, rfl, rfl⟩

/-- C8: initialize-once, read-many: once rb_grn_init_geo_point has
succeeded, both class references are resolved, every construction call
succeeds (never reading an unresolved reference), and any sequence of
construction calls leaves the resolved references untouched. -/
theorem init_once_read_many (m : String → Option HostClass)
    (s0 s : GeoPointModuleState)
    (h : rb_grn_init_geo_point m s0 = some s) (la lo : Int) (cs : List GeoCmd) :
    s.rb_cGrnTokyoGeoPoint.isSome = true ∧
    s.rb_cGrnWGS84GeoPoint.isSome = true ∧
    ((rb_grn_tokyo_geo_point_new s la lo).1).isSome = true ∧
    ((rb_grn_wgs84_geo_point_new s la lo).1).isSome = true ∧
    (runCmds s cs).2 = s := by
  have hstate : ∀ (t : GeoPointModuleState) (l : List GeoCmd), (runCmds t l).2 = t := by
    intro t l
    induction l generalizing t with
    | nil => rfl
    | cons c l ih =>
        have hc : (runCmd t c).2 = t := by cases c <;> rfl
        simp [runCmds, hc, ih]
  unfold rb_grn_init_geo_point at h
  cases ht : rb_const_get m tokyoClassName with
  | none => rw [ht] at h; exact absurd h (by simp)
  | some t =>
      cases hw : rb_const_get m wgs84ClassName with
      | none => rw [ht, hw] at h; exact absurd h (by simp)
      | some w =>
          rw [ht, hw] at h
          cases h
          exact ⟨rfl, rfl, rfl, rfl, hstate _ cs⟩

/-- C8 witness: initialization on the Groonga module from the
unresolved state succeeds and yields the ready state, on which the
conclusions of the theorem hold at a concrete input. -/
theorem init_once_read_many_witness :
    rb_grn_init_geo_point mGrn unresolvedState = some readyState ∧
    (readyState.rb_cGrnTokyoGeoPoint.isSome = true ∧
     readyState.rb_cGrnWGS84GeoPoint.isSome = true ∧
     ((rb_grn_tokyo_geo_point_new readyState 35 135).1).isSome = true ∧
     ((rb_grn_wgs84_geo_point_new readyState 35 135).1).isSome = true ∧
     (runCmds readyState [GeoCmd.mkTokyo 35 135]).2 = readyState) :=
  ⟨by decide,
   init_once_read_many mGrn unresolvedState readyState (by decide) 35 135
     [GeoCmd.mkTokyo 35 135]⟩

/-- C9: the integer-taking constructors refine the raw constructors:
for every state and every integer pair, each integer-taking constructor
returns exactly its raw counterpart applied to the INT2NUM conversions
of its two arguments. -/
theorem int_constructors_refine_raw (s : GeoPointModuleState) (la lo : Int) :
    rb_grn_tokyo_geo_point_new s la lo =
      rb_grn_tokyo_geo_point_new_raw s (INT2NUM la) (INT2NUM lo) ∧
    rb_grn_wgs84_geo_point_new s la lo =
      rb_grn_wgs84_geo_point_new_raw s (INT2NUM la) (INT2NUM lo) :=
  ⟨rfl, rfl⟩

/-- C10: datum dispatch is separated: after a successful init, the
Tokyo global holds exactly the class resolved under the name
TokyoGeoPoint and the WGS84 global exactly the class resolved under
WGS84GeoPoint; each raw constructor builds its result solely from its
own global; and on the Groonga module the two resolved classes are
distinct, so no input makes a constructor of one datum dispatch to the
class of the other. -/
theorem datum_dispatch_separated (m : String → Option HostClass)
    (s0 s : GeoPointModuleState)
    (h : rb_grn_init_geo_point m s0 = some s) (la lo : Int) :
    s.rb_cGrnTokyoGeoPoint = rb_const_get m tokyoClassName ∧
    s.rb_cGrnWGS84GeoPoint = rb_const_get m wgs84ClassName ∧
    (rb_grn_tokyo_geo_point_new_raw s la lo).1 =
      Option.map (fun klass => rb_funcall_new klass la lo) s.rb_cGrnTokyoGeoPoint ∧
    (rb_grn_wgs84_geo_point_new_raw s la lo).1 =
      Option.map (fun klass => rb_funcall_new klass la lo) s.rb_cGrnWGS84GeoPoint ∧
    rb_const_get mGrn tokyoClassName ≠ rb_const_get mGrn wgs84ClassName := by
  unfold rb_grn_init_geo_point at h
  cases ht : rb_const_get m tokyoClassName with
  | none => rw [ht] at h; exact absurd h (by simp)
  | some t =>
      cases hw : rb_const_get m wgs84ClassName with
      | none => rw [ht, hw] at h; exact absurd h (by simp)
      | some w =>
          rw [ht, hw] at h
          cases h
          exact ⟨rfl, rfl, rfl, rfl, by decide⟩

/-- C10 witness: the conclusions at the concrete init run on the
Groonga module, evaluated at the ready state and a concrete input. -/
theorem datum_dispatch_separated_witness :
    readyState.rb_cGrnTokyoGeoPoint = rb_const_get mGrn tokyoClassName ∧
    readyState.rb_cGrnWGS84GeoPoint = rb_const_get mGrn wgs84ClassName ∧
    (rb_grn_tokyo_geo_point_new_raw readyState 35 135).1 =
      Option.map (fun klass => rb_funcall_new klass 35 135)
        readyState.rb_cGrnTokyoGeoPoint ∧
    (rb_grn_wgs84_geo_point_new_raw readyState 35 135).1 =
      Option.map (fun klass => rb_funcall_new klass 35 135)
        readyState.rb_cGrnWGS84GeoPoint ∧
    rb_const_get mGrn tokyoClassName ≠ rb_const_get mGrn wgs84ClassName :=
  datum_dispatch_separated mGrn unresolvedState readyState (by decide) 35 135
